import Mathlib

/-!
Verification development for the trading_cockpit repository.

The repository ships a React-Native frontend (agents screen, trading store)
and a test record (`test_result.md`) for a Python backend (trading
controller, voting protocol, risk gate, budget allocator, autopilot
scheduler).  The backend sources themselves are not part of the available
tree, so the backend components are modelled from the written specification
(`spec.md`), while the frontend components are translated directly from the
TypeScript sources.  Quantities, prices, budgets and confidences are
modelled as rationals.
-/

namespace Cockpit

/-- Trade actions, as used by proposals and consensus decisions. -/
inductive TradeAction
| BUY
| SELL
| HOLD
deriving DecidableEq

/-- Modelled from the spec (section 3, Proposal): agent id, symbol,
action, quantity, reference price, confidence, free-text rationale and
round number. -/
structure Proposal where
agent : String
symbol : String
action : TradeAction
quantity : ℚ
price : ℚ
confidence : ℚ
reason : String
round : Nat
deriving DecidableEq

/-- Consensus outcome of a Decision: a winning action or NO_CONSENSUS. -/
inductive Outcome
| ofAction (a : TradeAction)
| NO_CONSENSUS
deriving DecidableEq

/-- Modelled from the spec (section 3, Decision): symbol, the two rounds
of proposals, the consensus outcome, the aggregate confidence and the
resulting trade quantity (none when no trade is proposed). -/
structure Decision where
symbol : String
round1 : List Proposal
round2 : List Proposal
outcome : Outcome
confidence : ℚ
tradeQuantity : Option ℚ
deriving DecidableEq

/-- Number of proposals in a list that vote for a given action. -/
def countAction (props : List Proposal) (a : TradeAction) : Nat :=
(props.filter (fun p => p.action == a)).length

/-- The proposals that voted for the winning action. -/
def winnerProposals (props : List Proposal) (a : TradeAction) : List Proposal :=
props.filter (fun p => p.action == a)

/-- Insert a rational into an already sorted list, keeping it sorted. -/
def insertSorted (x : ℚ) : List ℚ → List ℚ
| [] => [x]
| y :: ys => if x ≤ y then x :: y :: ys else y :: insertSorted x ys

/-- Insertion sort of a list of rationals. -/
def sortQ : List ℚ → List ℚ
| [] => []
| x :: xs => insertSorted x (sortQ xs)

/-- Median of a list of rationals: middle element of the sorted list for
odd length, mean of the two middle elements for even length, 0 for the
empty list. -/
def median (xs : List ℚ) : ℚ :=
let s := sortQ xs
if s.length = 0 then 0
else if s.length % 2 = 1 then s.getD (s.length / 2) 0
else (s.getD (s.length / 2 - 1) 0 + s.getD (s.length / 2) 0) / 2

/-- Mean of a list of rationals (0 for the empty list). -/
def mean (xs : List ℚ) : ℚ := xs.sum / (xs.length : ℚ)

/-- Modelled from the spec (section 4.1, consensus rule): tally round-2
actions; an action wins if it has a strict majority of the N agents
(2-of-3 in the reference deployment). -/
def majorityAction (props : List Proposal) : Option TradeAction :=
if 2 * countAction props TradeAction.BUY > props.length then some TradeAction.BUY
else if 2 * countAction props TradeAction.SELL > props.length then some TradeAction.SELL
else if 2 * countAction props TradeAction.HOLD > props.length then some TradeAction.HOLD
else none

/-- Modelled from the spec (section 4.1, `runVote`): round 2 is the round
used for the vote; on a majority the aggregate confidence is the mean
confidence of the winning voters and the trade quantity is the median of
their proposed quantities; otherwise the outcome is NO_CONSENSUS and no
trade is proposed. -/
def runVote (symbol : String) (round1 round2 : List Proposal) : Decision :=
match majorityAction round2 with
| some a =>
  { symbol := symbol
    round1 := round1
    round2 := round2
    outcome := Outcome.ofAction a
    confidence := mean ((winnerProposals round2 a).map Proposal.confidence)
    tradeQuantity := some (median ((winnerProposals round2 a).map Proposal.quantity)) }
| none =>
  { symbol := symbol
    round1 := round1
    round2 := round2
    outcome := Outcome.NO_CONSENSUS
    confidence := 0
    tradeQuantity := none }

/-- A concrete proposal used by the concrete scenario of the spec. -/
def mkProposal (agent : String) (action : TradeAction) (quantity confidence : ℚ)
    (round : Nat) : Proposal :=
{ agent := agent
  symbol := "AAPL"
  action := action
  quantity := quantity
  price := 100
  confidence := confidence
  reason := "scenario"
  round := round }

/-- Round-1 proposals of the concrete scenario of the spec:
three BUY proposals with quantities 50, 20 and 30. -/
def scenarioRound1 : List Proposal :=
[mkProposal "jordan" TradeAction.BUY 50 (4/5) 1,
 mkProposal "bohlen" TradeAction.BUY 20 (3/5) 1,
 mkProposal "frodo" TradeAction.BUY 30 (1/2) 1]

/-- Round-2 proposals of the concrete scenario of the spec, parameterized by the
the confidences of the three agents: BUY qty 50, BUY qty 20, HOLD. -/
def scenarioRound2 (c1 c2 c3 : ℚ) : List Proposal :=
[mkProposal "jordan" TradeAction.BUY 50 c1 2,
 mkProposal "bohlen" TradeAction.BUY 20 c2 2,
 mkProposal "frodo" TradeAction.HOLD 0 c3 2]

/-- A round-2 slate in which the three agents split 1/1/1
across BUY, SELL and HOLD. -/
def splitRound2 : List Proposal :=
[mkProposal "jordan" TradeAction.BUY 10 (1/2) 2,
 mkProposal "bohlen" TradeAction.SELL 10 (1/2) 2,
 mkProposal "frodo" TradeAction.HOLD 0 (1/2) 2]

/-- Per-cycle counters of the cycle report
(spec section 3, Cycle). -/
structure CycleCounters where
symbols_analyzed : Nat
trades_proposed : Nat
trades_executed : Nat
consensus_reached : Nat
deriving DecidableEq

/-- A decision reaches consensus (and, once risk-approved, drives a trade)
exactly when its outcome is a winning action. -/
def decisionExecutes (d : Decision) : Bool :=
match d.outcome with
| Outcome.ofAction _ => true
| Outcome.NO_CONSENSUS => false

/-- Modelled from the spec (section 4.4) and the in-repository test
record (`test_result.md`, DRY-RUN task): the missing
`trading_controller.py` counts every consensus decision into
`trades_executed` (line 168) regardless of the `dry_run` flag — the
documented dry-run bug.  The `dryRun` argument is deliberately ignored by
the `trades_executed` counter, which is what the test record reports. -/
def runCycleCurrent (dryRun : Bool) (decisions : List Decision) : CycleCounters :=
{ symbols_analyzed := decisions.length
  trades_proposed := decisions.length
  trades_executed := (decisions.filter (fun d => decisionExecutes d)).length
  consensus_reached := (decisions.filter (fun d => decisionExecutes d)).length }

/-- Scheduler state: number of currently running cycles, persisted
last_run/next_run timestamps, and the total number of cycles ever
started. -/
structure SchedulerState where
running : Nat
last_run : Option Nat
next_run : Option Nat
started : Nat
deriving DecidableEq

/-- Events seen by the autopilot scheduler: an interval firing at time
`now` with the configured interval, or the completion of the running
cycle. -/
inductive SchedEvent
| tick (now interval : Nat)
| complete
deriving DecidableEq

/-- Modelled from the spec (section 4.5): on a firing, if a cycle is
already in progress the scheduler skips it — no new cycle starts and
last_run is unchanged — but next_run is recomputed and persisted; on a
free firing a single cycle starts and last_run records its start time. -/
def schedStep (s : SchedulerState) : SchedEvent → SchedulerState
| SchedEvent.tick now interval =>
  if s.running ≠ 0 then
    { s with next_run := some (now + interval) }
  else
    { s with running := s.running + 1
             started := s.started + 1
             last_run := some now
             next_run := some (now + interval) }
| SchedEvent.complete => { s with running := s.running - 1 }

/-- Scheduler state at process start: nothing running, nothing recorded. -/
def initScheduler : SchedulerState :=
{ running := 0, last_run := none, next_run := none, started := 0 }

/-- The scheduler state after a sequence of events from process start. -/
def runSched (events : List SchedEvent) : SchedulerState :=
events.foldl schedStep initScheduler

lemma schedStep_running_le_one (s : SchedulerState) (e : SchedEvent)
    (h : s.running ≤ 1) : (schedStep s e).running ≤ 1 := by
  cases e with
  | tick now interval =>
    by_cases hr : s.running = 0
    · simp [schedStep, hr]
    · simp only [schedStep, hr, ne_eq, not_false_eq_true, if_true]
      exact h
  | complete =>
    simp only [schedStep]
    omega

lemma runSched_aux_running_le_one (events : List SchedEvent) (s : SchedulerState)
    (h : s.running ≤ 1) : (events.foldl schedStep s).running ≤ 1 := by
  induction events generalizing s with
  | nil => exact h
  | cons e rest ih =>
    exact ih (schedStep s e) (schedStep_running_le_one s e h)

/-- One budget pool of the Budget Allocator: a configured cap and the
cumulative value committed so far in the cycle. -/
structure BudgetPool where
cap : ℚ
committed : ℚ
deriving DecidableEq

/-- Modelled from the spec (section 4.3, `reserve`): a reservation is
approved only if the trade value does not push the cumulative
committed value past its cap; an approved reservation is added to the
committed total and retained. -/
def reserve (pool : BudgetPool) (tradeValue : ℚ) : Bool × BudgetPool :=
if pool.committed + tradeValue ≤ pool.cap then
  (true, { pool with committed := pool.committed + tradeValue })
else
  (false, pool)

/-- Portfolio snapshot fields used by the drawdown check of the Risk Gate. -/
structure PortfolioSnapshot where
equity : ℚ
peakEquity : ℚ
deriving DecidableEq

/-- Modelled from the spec (section 4.2):
drawdown% = (peakEquity - currentEquity) / peakEquity. -/
def drawdownPct (s : PortfolioSnapshot) : ℚ :=
(s.peakEquity - s.equity) / s.peakEquity

/-- Modelled from the spec (section 4.2): the Risk Gate rejects new BUY
decisions whenever drawdown exceeds the configured ceiling, regardless of
the vote outcome; the drawdown check does not reject other actions. -/
def riskGateEvaluate (a : TradeAction) (snap : PortfolioSnapshot) (ceiling : ℚ) : Bool :=
match a with
| TradeAction.BUY => decide (drawdownPct snap ≤ ceiling)
| TradeAction.SELL => true
| TradeAction.HOLD => true

/-- The singleton autopilot configuration record (spec section 3,
AutopilotConfig; field names from the frontend configure payload). -/
structure AutopilotConfig where
enabled : Bool
interval_minutes : Nat
max_trade_percentage : ℚ
jordan_solo_budget : ℚ
bohlen_solo_budget : ℚ
frodo_solo_budget : ℚ
shared_consensus_budget : ℚ
last_run : Option Nat
next_run : Option Nat
deriving DecidableEq

/-- The error raised when a configure call fails validation. -/
inductive ConfigError
| ConfigValidationError
deriving DecidableEq

/-- Sum of all configured budget caps. -/
def capSum (c : AutopilotConfig) : ℚ :=
c.jordan_solo_budget + c.bohlen_solo_budget + c.frodo_solo_budget
  + c.shared_consensus_budget

/-- Modelled from the spec (sections 4.3 and 7): the missing backend
configure-autopilot handler validates that the sum of the configured
budget caps does not exceed total portfolio equity; on violation the call
fails with ConfigValidationError before anything is persisted, leaving the
stored configuration unchanged.  Returns the persisted configuration after
the call together with the result of the call. -/
def configureAutopilot (stored req : AutopilotConfig) (equity : ℚ) :
    AutopilotConfig × Except ConfigError AutopilotConfig :=
if capSum req > equity then
  (stored, Except.error ConfigError.ConfigValidationError)
else
  (req, Except.ok req)

/-- The HOLD proposal synthesized for an unavailable advisor
(spec section 4.1). -/
def fallbackProposal (agent symbol : String) (round : Nat) : Proposal :=
{ agent := agent
  symbol := symbol
  action := TradeAction.HOLD
  quantity := 0
  price := 0
  confidence := 0
  reason := "advisor unavailable"
  round := round }

/-- Modelled from the spec (sections 4.1 and 6): collect one round of
proposals; an advisor call that times out or fails yields `none` and is
replaced by the synthesized HOLD fallback, so the symbol is not skipped
and every agent contributes a proposal. -/
def collectRound (symbol : String) (round : Nat) (agents : List String)
    (advisorResult : String → Option Proposal) : List Proposal :=
agents.map (fun ag =>
  match advisorResult ag with
  | some p => p
  | none => fallbackProposal ag symbol round)

/-- Outcome of an awaited HTTP request made by the frontend. -/
inductive RequestOutcome (α : Type)
| success (val : α)
| failure (msg : String)

/-- The fields of the start-cycle response consumed by the agents screen
(translated from `agenten.tsx`). -/
structure CycleResults where
trades_executed : Nat
trades_proposed : Nat
consensus_decisions : List Decision
deriving DecidableEq

/-- The component state of the agents screen that the trading buttons and
`startTradingCycle` touch (translated from `agenten.tsx`). -/
structure AgentenState where
cycleRunning : Bool
showSimulationModal : Bool
simulationResults : Option CycleResults
deriving DecidableEq

/-- Translated from `agenten.tsx`: the `disabled` prop of the
live-trading button is exactly `cycleRunning`. -/
def liveTradingButtonDisabled (s : AgentenState) : Bool := s.cycleRunning

/-- Translated from `agenten.tsx`: the `disabled` prop of the
simulation button is exactly `cycleRunning`. -/
def simulationButtonDisabled (s : AgentenState) : Bool := s.cycleRunning

/-- Translated from `agenten.tsx`, `startTradingCycle`: set `cycleRunning`
to true, await the start-cycle POST, on a successful dry run store the
results and open the simulation modal, and in the `finally` clause reset
`cycleRunning` to false whether the request succeeded or threw. -/
def startTradingCycle (s : AgentenState) (dryRun : Bool)
    (outcome : RequestOutcome CycleResults) : AgentenState :=
let s1 := { s with cycleRunning := true }
let s2 :=
  match outcome with
  | RequestOutcome.success results =>
    if dryRun then
      { s1 with simulationResults := some results, showSimulationModal := true }
    else s1
  | RequestOutcome.failure _ => s1
{ s2 with cycleRunning := false }

/-- Account record of the trading store (translated from the store
source). -/
structure Account where
cash : ℚ
portfolio_value : ℚ
buying_power : ℚ
equity : ℚ
deriving DecidableEq

/-- Position record of the trading store (translated from the store
source). -/
structure Position where
symbol : String
quantity : ℚ
avg_price : ℚ
current_price : ℚ
market_value : ℚ
unrealized_pl : ℚ
unrealized_plpc : ℚ
deriving DecidableEq

/-- Quote record of the trading store (translated from the store
source). -/
structure StoreQuote where
symbol : String
price : ℚ
bid : ℚ
ask : ℚ
timestamp : String
deriving DecidableEq

/-- The zustand trading-store state (translated from the store source). -/
structure TradingStoreState where
account : Option Account
positions : List Position
quotes : List (String × StoreQuote)
loading : Bool
error : Option String
deriving DecidableEq

/-- Translated from `placeOrder` of the trading store: set loading true and
clear the error, POST the order; on success set loading false and return
the response data; on failure record the error message, set loading false
and rethrow.  Returns the final store state and the result of the call. -/
def placeOrder (α : Type) (s : TradingStoreState) (post : RequestOutcome α) :
    TradingStoreState × Except String α :=
let s1 := { s with loading := true, error := none }
match post with
| RequestOutcome.success d => ({ s1 with loading := false }, Except.ok d)
| RequestOutcome.failure msg =>
  ({ s1 with error := some msg, loading := false }, Except.error msg)

/-- A scheduler state with one cycle in progress, started at time 0. -/
def busyScheduler : SchedulerState :=
{ running := 1, last_run := some 0, next_run := some 5, started := 1 }

/-- A stored baseline autopilot configuration. -/
def storedBaseline : AutopilotConfig :=
{ enabled := false
  interval_minutes := 60
  max_trade_percentage := 10
  jordan_solo_budget := 0
  bohlen_solo_budget := 0
  frodo_solo_budget := 0
  shared_consensus_budget := 100000
  last_run := none
  next_run := none }

/-- A requested configuration whose budget caps sum to 220000,
over-allocated against an equity of 100000 (the frontend scenario of three
solo budgets of 40000 each plus a shared consensus budget of 100000). -/
def overAllocatedReq : AutopilotConfig :=
{ enabled := true
  interval_minutes := 60
  max_trade_percentage := 10
  jordan_solo_budget := 40000
  bohlen_solo_budget := 40000
  frodo_solo_budget := 40000
  shared_consensus_budget := 100000
  last_run := none
  next_run := none }

lemma majorityAction_majority (props : List Proposal) (a : TradeAction)
    (h : majorityAction props = some a) : 2 * countAction props a > props.length := by
  unfold majorityAction at h
  split at h
  · injection h with h2
    subst h2
    assumption
  · split at h
    · injection h with h2
      subst h2
      assumption
    · split at h
      · injection h with h2
        subst h2
        assumption
      · exact absurd h (by simp)

lemma runVote_outcome_some (symbol : String) (round1 round2 : List Proposal) (a : TradeAction)
    (h : (runVote symbol round1 round2).outcome = Outcome.ofAction a) :
    majorityAction round2 = some a := by
  cases hm : majorityAction round2 with
  | none => simp [runVote, hm] at h
  | some b =>
    simp [runVote, hm] at h
    rw [h]

lemma runVote_eq_of_majority (symbol : String) (round1 round2 : List Proposal) (a : TradeAction)
    (hm : majorityAction round2 = some a) :
    (runVote symbol round1 round2).tradeQuantity
        = some (median ((winnerProposals round2 a).map Proposal.quantity)) ∧
    (runVote symbol round1 round2).confidence
        = mean ((winnerProposals round2 a).map Proposal.confidence) := by
  constructor <;> simp [runVote, hm]

/-- Claim C1 (code_bug evaluation): the claim requires trades_executed = 0
for every cycle run with dry_run = true, but the modelled controller,
following the documented behaviour of the in-repository test record
(dry-run wrongly increments trades_executed at line 168 of
trading_controller.py), reports trades_executed = 1 ≠ 0 on a dry-run
cycle whose single symbol reaches a BUY consensus. -/
theorem claim_C1_dry_run_counter_bug :
    (runCycleCurrent true
        [runVote "AAPL" scenarioRound1 (scenarioRound2 (4/5) (3/5) (1/2))]).trades_executed
      = 1 ∧
    (runCycleCurrent true
        [runVote "AAPL" scenarioRound1 (scenarioRound2 (4/5) (3/5) (1/2))]).trades_executed
      ≠ 0 := by
  constructor
  · decide
  · decide

/-- Claim C2: a Decision produced by runVote has an action outcome only if
that action has a strict round-2 majority (at least 2 of 3 agents in the
reference deployment), and a 1/1/1 split across BUY/SELL/HOLD yields
NO_CONSENSUS with no trade proposed. -/
theorem claim_C2_consensus_majority (sym : String) (r1 r2 : List Proposal) :
    (∀ a : TradeAction, (runVote sym r1 r2).outcome = Outcome.ofAction a →
        2 * countAction r2 a > r2.length ∧ (r2.length = 3 → 2 ≤ countAction r2 a)) ∧
    (countAction r2 TradeAction.BUY = 1 → countAction r2 TradeAction.SELL = 1 →
      countAction r2 TradeAction.HOLD = 1 → r2.length = 3 →
        (runVote sym r1 r2).outcome = Outcome.NO_CONSENSUS ∧
        (runVote sym r1 r2).tradeQuantity = none) := by
  constructor
  · intro a h
    have hm := runVote_outcome_some sym r1 r2 a h
    have hmaj := majorityAction_majority r2 a hm
    exact ⟨hmaj, fun _ => by omega⟩
  · intro hb hs hh hlen
    have hm : majorityAction r2 = none := by
      unfold majorityAction
      rw [hb, hs, hh, hlen]
      decide
    constructor <;> simp [runVote, hm]

/-- Witness for claim C2: on the concrete 1/1/1 round-2 slate the outcome
is NO_CONSENSUS and no trade is proposed. -/
theorem claim_C2_consensus_majority_witness :
    countAction splitRound2 TradeAction.BUY = 1 ∧
    countAction splitRound2 TradeAction.SELL = 1 ∧
    countAction splitRound2 TradeAction.HOLD = 1 ∧
    splitRound2.length = 3 ∧
    (runVote "AAPL" scenarioRound1 splitRound2).outcome = Outcome.NO_CONSENSUS ∧
    (runVote "AAPL" scenarioRound1 splitRound2).tradeQuantity = none := by
  have h := (claim_C2_consensus_majority "AAPL" scenarioRound1 splitRound2).2
      (by decide) (by decide) (by decide) (by decide)
  exact ⟨by decide, by decide, by decide, by decide, h.1, h.2⟩

/-- Claim C3: for every Decision with a winning action, the trade quantity
is the median of the quantities proposed by agents that voted for the
winner and the aggregate confidence is the mean confidence of those same
agents; in the concrete scenario where round 2 yields BUY qty 50, BUY qty
20, HOLD, the outcome is BUY with quantity 35 and confidence equal to the
mean of the confidences of the two BUY voters. -/
theorem claim_C3_median_and_mean (sym : String) (r1 r2 : List Proposal) (a : TradeAction)
    (c1 c2 c3 : ℚ)
    (h : (runVote sym r1 r2).outcome = Outcome.ofAction a) :
    (runVote sym r1 r2).tradeQuantity
        = some (median ((winnerProposals r2 a).map Proposal.quantity)) ∧
    (runVote sym r1 r2).confidence
        = mean ((winnerProposals r2 a).map Proposal.confidence) ∧
    (runVote "AAPL" scenarioRound1 (scenarioRound2 c1 c2 c3)).outcome
        = Outcome.ofAction TradeAction.BUY ∧
    (runVote "AAPL" scenarioRound1 (scenarioRound2 c1 c2 c3)).tradeQuantity = some 35 ∧
    (runVote "AAPL" scenarioRound1 (scenarioRound2 c1 c2 c3)).confidence = (c1 + c2) / 2 := by
  have hm := runVote_outcome_some sym r1 r2 a h
  have hgen := runVote_eq_of_majority sym r1 r2 a hm
  have hmScen : majorityAction (scenarioRound2 c1 c2 c3) = some TradeAction.BUY := rfl
  refine ⟨hgen.1, hgen.2, ?_, ?_, ?_⟩
  · simp [runVote, hmScen]
  · show some (median [50, 20]) = some 35
    norm_num [median, sortQ, insertSorted]
  · show mean [c1, c2] = (c1 + c2) / 2
    simp [mean]

/-- Witness for claim C3: the concrete scenario with confidences 4/5 and
3/5 for the two BUY voters yields outcome BUY, quantity 35 and confidence
(4/5 + 3/5) / 2. -/
theorem claim_C3_median_and_mean_witness :
    (runVote "AAPL" scenarioRound1 (scenarioRound2 (4/5) (3/5) (1/2))).outcome
        = Outcome.ofAction TradeAction.BUY ∧
    (runVote "AAPL" scenarioRound1 (scenarioRound2 (4/5) (3/5) (1/2))).tradeQuantity
        = some 35 ∧
    (runVote "AAPL" scenarioRound1 (scenarioRound2 (4/5) (3/5) (1/2))).confidence
        = (4/5 + 3/5) / 2 := by
  have h := claim_C3_median_and_mean "AAPL" scenarioRound1
      (scenarioRound2 (4/5) (3/5) (1/2)) TradeAction.BUY (4/5) (3/5) (1/2) (by decide)
  exact ⟨h.2.2.1, h.2.2.2.1, h.2.2.2.2⟩

/-- Claim C4: a scheduler tick that fires while a cycle is in progress
starts exactly zero new cycles and leaves last_run (the start time of the
in-progress cycle) unchanged while next_run is recomputed; along any event
trace from process start at most one cycle is running at a time. -/
theorem claim_C4_single_flight (s : SchedulerState) (now interval : Nat)
    (events : List SchedEvent) (h : s.running ≠ 0) :
    (schedStep s (SchedEvent.tick now interval)).started = s.started ∧
    (schedStep s (SchedEvent.tick now interval)).running = s.running ∧
    (schedStep s (SchedEvent.tick now interval)).last_run = s.last_run ∧
    (schedStep s (SchedEvent.tick now interval)).next_run = some (now + interval) ∧
    (runSched events).running ≤ 1 := by
  refine ⟨?_, ?_, ?_, ?_,
    runSched_aux_running_le_one events initScheduler (by simp [initScheduler])⟩ <;>
  simp [schedStep, h]

/-- Witness for claim C4: a tick firing while one cycle runs keeps
started at 1 and last_run at the start time 0, and recomputes next_run. -/
theorem claim_C4_single_flight_witness :
    busyScheduler.running ≠ 0 ∧
    (schedStep busyScheduler (SchedEvent.tick 10 5)).started = 1 ∧
    (schedStep busyScheduler (SchedEvent.tick 10 5)).last_run = some 0 ∧
    (schedStep busyScheduler (SchedEvent.tick 10 5)).next_run = some 15 ∧
    (runSched [SchedEvent.tick 0 5, SchedEvent.tick 5 5]).running ≤ 1 := by
  have h := claim_C4_single_flight busyScheduler 10 5
      [SchedEvent.tick 0 5, SchedEvent.tick 5 5] (by decide)
  exact ⟨by decide, h.1, h.2.2.1, h.2.2.2.1, h.2.2.2.2⟩

/-- Claim C5: a reservation is approved iff the cumulative committed value
plus the trade value does not exceed the cap; approved reservations are
retained (the committed total never decreases); with cap 50000 and 45000
committed, a 10000 trade is rejected, a 4000 trade is approved and the
approved reservation is retained in the committed total. -/
theorem claim_C5_budget_reserve (p : BudgetPool) (v : ℚ) (hv : 0 ≤ v) :
    ((reserve p v).1 = true ↔ p.committed + v ≤ p.cap) ∧
    p.committed ≤ ((reserve p v).2).committed ∧
    (reserve { cap := 50000, committed := 45000 } 10000).1 = false ∧
    (reserve { cap := 50000, committed := 45000 } 4000).1 = true ∧
    ((reserve { cap := 50000, committed := 45000 } 4000).2).committed = 49000 := by
  refine ⟨?_, ?_, by norm_num [reserve], by norm_num [reserve], by norm_num [reserve]⟩
  · unfold reserve
    split <;> simp_all
  · unfold reserve
    split
    · simp
      linarith
    · simp

/-- Witness for claim C5: the 4000 reservation against the 50000 cap with
45000 committed is approved. -/
theorem claim_C5_budget_reserve_witness :
    (0:ℚ) ≤ 4000 ∧
    (reserve { cap := 50000, committed := 45000 } 4000).1 = true := by
  refine ⟨by norm_num, ?_⟩
  exact (claim_C5_budget_reserve { cap := 50000, committed := 45000 } 4000
      (by norm_num)).2.2.2.1

/-- Claim C6: the Risk Gate computes drawdown% as
(peakEquity - currentEquity) / peakEquity and rejects a BUY exactly when
drawdown exceeds the ceiling; with equity 100000 and peakEquity 111111 a
BUY passes a 20% ceiling and is rejected under a 5% ceiling. -/
theorem claim_C6_drawdown_gate (snap : PortfolioSnapshot) (ceiling : ℚ) :
    (riskGateEvaluate TradeAction.BUY snap ceiling = false ↔ ceiling < drawdownPct snap) ∧
    drawdownPct { equity := 100000, peakEquity := 111111 } = 11111 / 111111 ∧
    riskGateEvaluate TradeAction.BUY { equity := 100000, peakEquity := 111111 } (1/5)
        = true ∧
    riskGateEvaluate TradeAction.BUY { equity := 100000, peakEquity := 111111 } (1/20)
        = false := by
  refine ⟨?_,
    by norm_num [drawdownPct],
    by simp only [riskGateEvaluate, decide_eq_true_eq, drawdownPct]; norm_num,
    by simp only [riskGateEvaluate, decide_eq_false_iff_not, not_le, drawdownPct]; norm_num⟩
  simp [riskGateEvaluate, decide_eq_false_iff_not, not_le]

/-- Witness for claim C6: the concrete snapshot is approved under the 20%
ceiling and rejected under the 5% ceiling. -/
theorem claim_C6_drawdown_gate_witness :
    riskGateEvaluate TradeAction.BUY { equity := 100000, peakEquity := 111111 } (1/5)
        = true ∧
    riskGateEvaluate TradeAction.BUY { equity := 100000, peakEquity := 111111 } (1/20)
        = false :=
  ⟨(claim_C6_drawdown_gate { equity := 100000, peakEquity := 111111 } (1/5)).2.2.1,
   (claim_C6_drawdown_gate { equity := 100000, peakEquity := 111111 } (1/20)).2.2.2⟩

/-- Claim C7: a configure-autopilot call whose budget caps sum past total
portfolio equity fails with ConfigValidationError and is rejected before
persistence — the stored configuration is left unchanged. -/
theorem claim_C7_config_validation (stored req : AutopilotConfig) (equity : ℚ)
    (h : equity < capSum req) :
    (configureAutopilot stored req equity).2
        = Except.error ConfigError.ConfigValidationError ∧
    (configureAutopilot stored req equity).1 = stored := by
  constructor <;> simp [configureAutopilot, h]

/-- Witness for claim C7: the over-allocated request (caps summing to
220000 against equity 100000) is rejected and the stored configuration is
unchanged. -/
theorem claim_C7_config_validation_witness :
    (100000:ℚ) < capSum overAllocatedReq ∧
    (configureAutopilot storedBaseline overAllocatedReq 100000).2
        = Except.error ConfigError.ConfigValidationError ∧
    (configureAutopilot storedBaseline overAllocatedReq 100000).1 = storedBaseline := by
  have hlt : (100000:ℚ) < capSum overAllocatedReq := by
    norm_num [capSum, overAllocatedReq]
  have h := claim_C7_config_validation storedBaseline overAllocatedReq 100000 hlt
  exact ⟨hlt, h.1, h.2⟩

/-- Claim C8: an advisor call that times out or fails is replaced by a
synthesized HOLD proposal with confidence 0 and rationale
"advisor unavailable"; the symbol is not skipped, so the collected round
always holds one proposal per agent. -/
theorem claim_C8_advisor_fallback (symbol : String) (round : Nat) (agents : List String)
    (advisorResult : String → Option Proposal) :
    (collectRound symbol round agents advisorResult).length = agents.length ∧
    (∀ ag ∈ agents, advisorResult ag = none →
        fallbackProposal ag symbol round
          ∈ collectRound symbol round agents advisorResult) ∧
    (∀ ag : String, (fallbackProposal ag symbol round).action = TradeAction.HOLD ∧
        (fallbackProposal ag symbol round).confidence = 0 ∧
        (fallbackProposal ag symbol round).reason = "advisor unavailable") := by
  refine ⟨by simp [collectRound], ?_, fun ag => ⟨rfl, rfl, rfl⟩⟩
  intro ag hmem hnone
  have hmm := List.mem_map_of_mem (fun ag =>
    match advisorResult ag with
    | some p => p
    | none => fallbackProposal ag symbol round) hmem
  simpa [collectRound, hnone] using hmm

/-- Witness for claim C8: with every advisor unavailable, the agent
jordan still contributes the fallback HOLD proposal and the round has one
proposal per agent. -/
theorem claim_C8_advisor_fallback_witness :
    ("jordan" ∈ (["jordan", "bohlen", "frodo"] : List String)) ∧
    fallbackProposal "jordan" "AAPL" 1
        ∈ collectRound "AAPL" 1 ["jordan", "bohlen", "frodo"] (fun _ => none) ∧
    (collectRound "AAPL" 1 ["jordan", "bohlen", "frodo"] (fun _ => none)).length = 3 := by
  have h := claim_C8_advisor_fallback "AAPL" 1 ["jordan", "bohlen", "frodo"]
      (fun _ => none)
  exact ⟨by simp, h.2.1 "jordan" (by simp) rfl, h.1⟩

/-- Claim C9: while a start-cycle request is in flight (cycleRunning is
true) both the live-trading and the simulation buttons are disabled, and
startTradingCycle resets cycleRunning to false when the request completes,
whether it succeeds or throws. -/
theorem claim_C9_cycle_running_guard (s : AgentenState) (dryRun : Bool)
    (outcome : RequestOutcome CycleResults) (h : s.cycleRunning = true) :
    liveTradingButtonDisabled s = true ∧
    simulationButtonDisabled s = true ∧
    (startTradingCycle s dryRun outcome).cycleRunning = false :=
  ⟨h, h, rfl⟩

/-- Witness for claim C9: in a state with cycleRunning true both buttons
are disabled, and after a request that throws cycleRunning is false. -/
theorem claim_C9_cycle_running_guard_witness :
    AgentenState.cycleRunning
        { cycleRunning := true, showSimulationModal := false,
          simulationResults := none } = true ∧
    liveTradingButtonDisabled
        { cycleRunning := true, showSimulationModal := false,
          simulationResults := none } = true ∧
    simulationButtonDisabled
        { cycleRunning := true, showSimulationModal := false,
          simulationResults := none } = true ∧
    (startTradingCycle
        { cycleRunning := true, showSimulationModal := false,
          simulationResults := none } false
        (RequestOutcome.failure "network error")).cycleRunning = false := by
  have h := claim_C9_cycle_running_guard
      { cycleRunning := true, showSimulationModal := false, simulationResults := none }
      false (RequestOutcome.failure "network error") rfl
  exact ⟨rfl, h.1, h.2.1, h.2.2⟩

/-- Claim C10: when the POST made by placeOrder fails, the operation
records the error message, sets loading to false, rethrows the error and
leaves account, positions and quotes unchanged. -/
theorem claim_C10_place_order_failure (α : Type) (s : TradingStoreState) (msg : String) :
    (placeOrder α s (RequestOutcome.failure msg)).1.error = some msg ∧
    (placeOrder α s (RequestOutcome.failure msg)).1.loading = false ∧
    (placeOrder α s (RequestOutcome.failure msg)).1.account = s.account ∧
    (placeOrder α s (RequestOutcome.failure msg)).1.positions = s.positions ∧
    (placeOrder α s (RequestOutcome.failure msg)).1.quotes = s.quotes ∧
    (placeOrder α s (RequestOutcome.failure msg)).2 = Except.error msg :=
  ⟨rfl, rfl, rfl, rfl, rfl, rfl⟩

end Cockpit
